import Mathlib

/-!
# Verification of the TCPPeer connection layer (src/src/overlay/TCPPeer.cpp)

A shallow embedding of the peer-connection layer: the frame codec
(`getIncomingMsgLength`), the read chain (`startRead`, `readHeaderHandler`,
`readBodyHandler`, `recvMessage`), the handshake gate (`recvHello`,
`timerExpired`), the teardown sequencer (`drop`) and the two lifecycle entry
points (`initiate`, `accept`).

Stateful C++ methods become pure functions from the connection record to an
updated record plus the list of externally visible effects they emit (socket
operations, database accesses, metric marks, registry notifications), in the
order the source emits them.  C++ exceptions become an explicit `Outcome.thrown`
result.  The C++ `int` is modelled as `Int` through an explicit 32-bit
reinterpretation (`toInt32`) of a `Nat` computation; the reinterpretation is
exact here because every intermediate of the length accumulator stays below
2^31 for byte-valued inputs.  Parts of the repository that `TCPPeer.cpp` calls
but that are not under src/ (the base class `Peer`, `PeerRecord`, the XDR
library) are modelled from the spec and marked as such in their doc comments.
-/

namespace stellar

/-- `#define MS_TO_WAIT_FOR_HELLO 2000` (line 17). -/
def MS_TO_WAIT_FOR_HELLO : Nat := 2000

/-- `#define MAX_MESSAGE_SIZE 0x1000000` (line 18), as the C++ `int` it is
compared against on line 176. -/
def MAX_MESSAGE_SIZE : Int := 0x1000000

/-- One raw byte.  The spec fixes `incomingHeader` to "exactly 4 raw bytes";
the buffer's element type (an unsigned byte) is taken from the spec because
the header file declaring `mIncomingHeader` is not under src/. -/
abbrev Byte := Fin 256

/-- The `Peer::PeerRole` enum consumed by `TCPPeer.cpp`.  Note the source names
the enum after the REMOTE node's role: `initiate` constructs with `ACCEPTOR`
("We are initiating; new `newed` TCPPeer is accepting", line 56), `accept`
constructs with `INITIATOR` (line 74), and `recvHello`'s `ACCEPTOR` branch is
commented "we called this guy" (line 282). -/
inductive PeerRole where
  | INITIATOR
  | ACCEPTOR
deriving DecidableEq, Repr

/-- The connection state.  Only `CLOSING` appears in `TCPPeer.cpp`
(lines 302, 306); the other two values follow the spec's state set
{Connecting, Active, Closing}. -/
inductive PeerState where
  | CONNECTING
  | CONNECTED
  | CLOSING
deriving DecidableEq, Repr

/-- The spec's role vocabulary: "Initiator = we opened the socket; Acceptor =
the remote opened it toward us" (spec section 3). -/
inductive SpecRole where
  | Initiator
  | Acceptor
deriving DecidableEq, Repr

/-- Reading the source enum in the spec's vocabulary.  Per the source comments
quoted at `PeerRole`, the enum value records the remote's role, so the
`ACCEPTOR`-tagged connection is the one this node opened (the spec's
Initiator) and the `INITIATOR`-tagged connection is the one the remote opened
(the spec's Acceptor). -/
def specRoleOf : PeerRole → SpecRole
  | PeerRole.ACCEPTOR => SpecRole.Initiator
  | PeerRole.INITIATOR => SpecRole.Acceptor

/-- The 4-byte frame header `mIncomingHeader`. -/
structure Header where
  b0 : Byte
  b1 : Byte
  b2 : Byte
  b3 : Byte
deriving DecidableEq, Repr

/-- A peer reputation record.  Modelled from the spec: the store's contract is
`load(address, port) → optional record\x7bfailureCount, nextAttemptTime\x7d` and
`store(record)`; `PeerRecord.cpp` is not under src/.  Field names follow the
uses in `TCPPeer.cpp` (`mNumFailures`, `mNextAttempt`, lines 292-293); clock
times are abstract ticks. -/
structure PeerRecord where
  mIP : String
  mPort : Nat
  mNumFailures : Nat
  mNextAttempt : Nat
deriving DecidableEq, Repr

/-- Modelled from the spec: `PeerRecord::fromIPPort` (not in src/) fills a
fresh record for ip:port "with default failure/backoff fields" — no recorded
failures and the next attempt at the current clock time. -/
def PeerRecord.fromIPPort (ip : String) (port : Nat) (now : Nat) : PeerRecord :=
  { mIP := ip, mPort := port, mNumFailures := 0, mNextAttempt := now }

/-- The message envelope as consumed by this layer.  Modelled from the spec:
the only handshake field this layer reads is the remote's listening port; all
other messages are opaque payloads dispatched upward. -/
inductive StellarMessage where
  | hello (peerPort : Nat)
  | other (tag : Nat)
deriving DecidableEq, Repr

/-- Modelled from the spec: the body is "a fixed-schema binary encoding of a
message envelope" decoded by the external XDR library
(`xdr::xdr_argpack_archive`, line 248, not in src/), which signals structural
failure by throwing.  The schema is abstracted to: a leading type tag (0 =
hello, anything else = opaque), a hello carrying a 2-byte big-endian listening
port; a body too short for its schema fails structurally (`none`). -/
def decodeEnvelope : List Nat → Option StellarMessage
  | [] => none
  | t :: rest =>
    if t = 0 then
      match rest with
      | p0 :: p1 :: _ => some (StellarMessage.hello (p0 * 256 + p1))
      | _ => none
    else some (StellarMessage.other t)

/-- Externally visible effects, in source order of emission. -/
inductive Effect where
  | asyncConnect
  | armHelloTimer (ms : Nat)
  | armHeaderRead
  | armBodyRead (n : Nat)
  | cancelHelloTimer
  | logWarn
  | dbLoad (ip : String) (port : Nat)
  | dbStore (rec : PeerRecord)
  | sendHello
  | sendPeers
  | dispatchToHandler
  | unregister
  | sockShutdown
  | sockClose
  | markMessageRead
  | markByteRead (n : Nat)
deriving DecidableEq, Repr

/-- The external collaborators' answers, fixed for one delivery: the base
handshake validation verdict, the admission verdict
(`OverlayManager::isPeerAccepted`), the reputation store's content for this
peer's key, and the clock. -/
structure Env where
  helloValid : Bool
  isPeerAccepted : Bool
  peerRecordDB : Option PeerRecord
  now : Nat
deriving DecidableEq, Repr

/-- The connection (`TCPPeer`) state relevant to the claims. -/
structure Conn where
  role : PeerRole
  state : PeerState
  mIP : String
  mRemoteListeningPort : Nat
  mIncomingHeader : Header
  mIncomingBody : List Nat
  helloTimerArmed : Bool
deriving DecidableEq, Repr

/-- Result of a handler that may let a C++ exception escape: `ok` is normal
return, `thrown` records the state and the effects already emitted when the
exception left the layer. -/
inductive Outcome where
  | ok (c : Conn) (es : List Effect)
  | thrown (c : Conn) (es : List Effect)
deriving DecidableEq, Repr

/-- Reinterpret a `Nat` as a 32-bit two's-complement `int` value. -/
def toInt32 (n : Nat) : Int :=
  if n % 4294967296 < 2147483648 then ((n % 4294967296 : Nat) : Int)
  else ((n % 4294967296 : Nat) : Int) - 4294967296

/-- Conversion of a C++ `int` to `size_t` (the argument of
`mIncomingBody.resize` on line 204): reduction modulo 2^64 of the signed
value. -/
def toSizeT (i : Int) : Nat := (i % ((2 : Int) ^ 64)).toNat

/-- The shift-accumulate of `getIncomingMsgLength` (lines 168-175): byte 0
masked with `0x7f`, then `<<= 8` / `|=` with each following byte.  Computed in
`Nat`; for byte inputs every intermediate is below 2^31, so the C++ `int`
never wraps and the single final reinterpretation in `getLength32` is
exact. -/
def accumLength (b0 b1 b2 b3 : Nat) : Nat :=
  ((((b0 &&& 0x7f) <<< 8 ||| b1) <<< 8 ||| b2) <<< 8) ||| b3

/-- The `int length` value computed by `getIncomingMsgLength` from the 4
header bytes. -/
def getLength32 (h : Header) : Int :=
  toInt32 (accumLength h.b0.val h.b1.val h.b2.val h.b3.val)

namespace TCPPeer

/-- `TCPPeer::drop` (lines 299-329): if `mState == CLOSING` return with no
effect; otherwise set `mState = CLOSING` and post a deferred action that
notifies the registry (`dropPeer`), shuts down both directions of the socket
(errors swallowed by the `try/catch`) and closes it.  The single-threaded loop
runs the posted action exactly once; its three effects are listed in its
execution order. -/
def drop (c : Conn) : Conn × List Effect :=
  if c.state = PeerState.CLOSING then (c, [])
  else ({ c with state := PeerState.CLOSING },
        [Effect.unregister, Effect.sockShutdown, Effect.sockClose])

/-- `TCPPeer::timerExpired` (lines 92-96): unconditionally `drop()`. -/
def timerExpired (c : Conn) : Conn × List Effect := drop c

/-- `TCPPeer::startRead` (lines 147-163): issue the 4-byte header read. -/
def startRead (c : Conn) : Conn × List Effect := (c, [Effect.armHeaderRead])

/-- `TCPPeer::getIncomingMsgLength` (lines 165-184): accumulate the length,
and if `length < 0 || length > MAX_MESSAGE_SIZE` log a warning and `drop()`;
the (possibly out-of-range) length is returned to the caller either way. -/
def getIncomingMsgLength (c : Conn) : Int × Conn × List Effect :=
  let length := getLength32 c.mIncomingHeader
  if length < 0 ∨ length > MAX_MESSAGE_SIZE then
    let (c2, es) := drop c
    (length, c2, Effect.logWarn :: es)
  else
    (length, c, [])

/-- `TCPPeer::readHeaderHandler` (lines 192-217): on success mark the bytes
read, resize `mIncomingBody` to `getIncomingMsgLength()` (converted to
`size_t`) and issue the body read — unconditionally, even when
`getIncomingMsgLength` invoked `drop`; on a read error log and `drop()`.  The
resized buffer's content is immaterial (the transport overwrites it before
`readBodyHandler` runs); it is modelled as zero-filled. -/
def readHeaderHandler (err : Bool) (bytes : Nat) (c : Conn) : Conn × List Effect :=
  if err = false then
    let (length, c1, es1) := getIncomingMsgLength c
    let n := toSizeT length
    let c2 := { c1 with mIncomingBody := List.replicate n 0 }
    (c2, Effect.markByteRead bytes :: es1 ++ [Effect.armBodyRead n])
  else
    let (c2, es) := drop c
    (c2, Effect.logWarn :: es)

/-- Modelled from the spec: base-class handshake validation (`Peer::recvHello`,
line 256, not under src/).  It is a no-op returning false once the connection
is already Closing ("an already-fired timer's drop must make a subsequent
hello a no-op because `state` is already `Closing`"); otherwise it validates
protocol/capability compatibility (the external verdict `env.helloValid`) and
on success records the remote's advertised listening port from the message and
continues as Active. -/
def peerRecvHello (env : Env) (msg : StellarMessage) (c : Conn) : Bool × Conn :=
  if c.state = PeerState.CLOSING then (false, c)
  else if env.helloValid = false then (false, c)
  else
    match msg with
    | StellarMessage.hello p =>
        (true, { c with mRemoteListeningPort := p, state := PeerState.CONNECTED })
    | StellarMessage.other _ => (false, c)

/-- `TCPPeer::recvHello` (lines 252-297): cancel the hello timer, run the base
validation, then branch on the role.  `mRole == INITIATOR` (the remote
initiated, i.e. this is the accept-constructed connection): ensure a
reputation record exists (create-and-store a default one when the load finds
nothing), then if `isPeerAccepted` send our hello and our peer list, else send
the peer list only and `drop()`.  Otherwise ("we called this guy", the
initiate-constructed connection): load or create the record, zero
`mNumFailures`, set `mNextAttempt` to now, and store it. -/
def recvHello (env : Env) (msg : StellarMessage) (c : Conn) :
    Bool × Conn × List Effect :=
  let c0 := { c with helloTimerArmed := false }
  match peerRecvHello env msg c0 with
  | (false, c1) => (false, c1, [Effect.cancelHelloTimer])
  | (true, c1) =>
    if c1.role = PeerRole.INITIATOR then
      let loadEs := [Effect.dbLoad c1.mIP c1.mRemoteListeningPort]
      let storeEs :=
        match env.peerRecordDB with
        | some _ => []
        | none =>
            [Effect.dbStore
              (PeerRecord.fromIPPort c1.mIP c1.mRemoteListeningPort env.now)]
      if env.isPeerAccepted then
        (true, c1,
          Effect.cancelHelloTimer ::
            loadEs ++ storeEs ++ [Effect.sendHello, Effect.sendPeers])
      else
        let (c2, dropEs) := drop c1
        (true, c2,
          Effect.cancelHelloTimer ::
            loadEs ++ storeEs ++ [Effect.sendPeers] ++ dropEs)
    else
      let pr0 :=
        match env.peerRecordDB with
        | some pr => pr
        | none => PeerRecord.fromIPPort c1.mIP c1.mRemoteListeningPort env.now
      let pr := { pr0 with mNumFailures := 0, mNextAttempt := env.now }
      (true, c1,
        [Effect.cancelHelloTimer,
         Effect.dbLoad c1.mIP c1.mRemoteListeningPort, Effect.dbStore pr])

/-- Modelled from the spec: base-class message dispatch (`Peer::recvMessage`,
line 249, not under src/): "if it is the handshake type, hand to the Handshake
Gate; otherwise hand to the external message handler."  The hello case reaches
`TCPPeer::recvHello` through virtual dispatch. -/
def peerRecvMessage (env : Env) (sm : StellarMessage) (c : Conn) :
    Conn × List Effect :=
  match sm with
  | StellarMessage.hello _ =>
      let (_, c2, es) := recvHello env sm c
      (c2, es)
  | StellarMessage.other _ => (c, [Effect.dispatchToHandler])

/-- `TCPPeer::recvMessage` (lines 241-250): mark the message-read meter, then
unpack `mIncomingBody` as a `StellarMessage` and dispatch it.  There is no
exception handler: a structural decode failure (the library throw) escapes to
the caller as `Outcome.thrown`, after the meter mark already performed on
line 246. -/
def recvMessage (env : Env) (c : Conn) : Outcome :=
  match decodeEnvelope c.mIncomingBody with
  | none => Outcome.thrown c [Effect.markMessageRead]
  | some sm =>
      let (c2, es) := peerRecvMessage env sm c
      Outcome.ok c2 (Effect.markMessageRead :: es)

/-- `TCPPeer::readBodyHandler` (lines 219-239): on success mark the bytes
read, run `recvMessage()`, then `startRead()` — unconditionally, with no state
check, even when handling the message invoked `drop`; a throw from
`recvMessage` propagates (so `startRead` is skipped only by unwinding).  On a
read error log and `drop()`. -/
def readBodyHandler (env : Env) (err : Bool) (bytes : Nat) (c : Conn) :
    Outcome :=
  if err = false then
    match recvMessage env c with
    | Outcome.ok c2 es =>
        let (c3, es2) := startRead c2
        Outcome.ok c3 (Effect.markByteRead bytes :: es ++ es2)
    | Outcome.thrown c2 es =>
        Outcome.thrown c2 (Effect.markByteRead bytes :: es)
  else
    let (c2, es) := drop c
    Outcome.ok c2 (Effect.logWarn :: es)

/-- `TCPPeer::initiate` (lines 46-65): construct a connection with role
`ACCEPTOR` (line 55 — "We are initiating"), record the dialed ip and port, and
begin the asynchronous outbound connect.  No hello timer is armed. -/
def initiate (ip : String) (port : Nat) : Conn × List Effect :=
  ({ role := PeerRole.ACCEPTOR, state := PeerState.CONNECTING, mIP := ip,
     mRemoteListeningPort := port, mIncomingHeader := ⟨0, 0, 0, 0⟩,
     mIncomingBody := [], helloTimerArmed := false },
   [Effect.asyncConnect])

/-- `TCPPeer::accept` (lines 67-85): construct a connection with role
`INITIATOR` (line 73 — "We are accepting"), record the transport's remote
address, arm the hello deadline timer for `MS_TO_WAIT_FOR_HELLO` and start the
read loop. -/
def accept (remoteIp : String) : Conn × List Effect :=
  ({ role := PeerRole.INITIATOR, state := PeerState.CONNECTING, mIP := remoteIp,
     mRemoteListeningPort := 0, mIncomingHeader := ⟨0, 0, 0, 0⟩,
     mIncomingBody := [], helloTimerArmed := true },
   [Effect.armHelloTimer MS_TO_WAIT_FOR_HELLO, Effect.armHeaderRead])

/-- `drop()` invoked `n` times in sequence, concatenating the effects. -/
def dropN : Nat → Conn → Conn × List Effect
  | 0, c => (c, [])
  | Nat.succ k, c =>
      let (c1, es1) := drop c
      let (c2, es2) := dropN k c1
      (c2, es1 ++ es2)

end TCPPeer

/-- Modelled from the spec: the wire header is the "big-endian uint32"
encoding of the length (bit 31 reserved): the four bytes are the big-endian
base-256 digits of the value. -/
def encodeHeader (n : Nat) : Header :=
  ⟨⟨n / 16777216 % 256, Nat.mod_lt _ (by norm_num)⟩,
   ⟨n / 65536 % 256, Nat.mod_lt _ (by norm_num)⟩,
   ⟨n / 256 % 256, Nat.mod_lt _ (by norm_num)⟩,
   ⟨n % 256, Nat.mod_lt _ (by norm_num)⟩⟩

/-- A copy of a header with the reserved top bit of byte 0 forced on. -/
def setReservedBit (h : Header) : Header :=
  ⟨⟨h.b0.val ||| 128, by
      have h256 : (2 : Nat) ^ 8 = 256 := by norm_num
      have hlt := Nat.or_lt_two_pow (x := h.b0.val) (y := 128) (n := 8)
        (by rw [h256]; exact h.b0.isLt) (by norm_num)
      rw [h256] at hlt
      exact hlt⟩,
   h.b1, h.b2, h.b3⟩

/-! ## Concrete instances used by counterexamples and witnesses -/

/-- A live connection whose header buffer holds 01 00 00 00, i.e. a decoded
body length of exactly 0x1000000 (16 MiB). -/
def boundaryConn : Conn :=
  { role := PeerRole.INITIATOR, state := PeerState.CONNECTED,
    mIP := "203.0.113.5", mRemoteListeningPort := 11625,
    mIncomingHeader := ⟨1, 0, 0, 0⟩, mIncomingBody := [],
    helloTimerArmed := false }

/-- A live connection whose header buffer holds 02 00 00 00, i.e. a decoded
body length of 0x2000000 (32 MiB). -/
def oversizedConn : Conn :=
  { role := PeerRole.INITIATOR, state := PeerState.CONNECTED,
    mIP := "203.0.113.5", mRemoteListeningPort := 11625,
    mIncomingHeader := ⟨2, 0, 0, 0⟩, mIncomingBody := [],
    helloTimerArmed := false }

/-- A live accept-constructed connection with no handshake yet. -/
def liveConn : Conn :=
  { role := PeerRole.INITIATOR, state := PeerState.CONNECTED,
    mIP := "198.51.100.7", mRemoteListeningPort := 0,
    mIncomingHeader := ⟨0, 0, 0, 0⟩, mIncomingBody := [],
    helloTimerArmed := true }

/-- An accept-constructed connection whose body buffer holds an encoded hello
advertising port 7001 (tag 0, port bytes 27 and 89). -/
def helloBodyConn : Conn :=
  { role := PeerRole.INITIATOR, state := PeerState.CONNECTED,
    mIP := "192.0.2.9", mRemoteListeningPort := 0,
    mIncomingHeader := ⟨0, 0, 0, 0⟩, mIncomingBody := [0, 27, 89],
    helloTimerArmed := true }

/-- An accept-constructed connection whose body buffer holds an opaque
non-hello message (tag 5). -/
def otherBodyConn : Conn :=
  { role := PeerRole.INITIATOR, state := PeerState.CONNECTED,
    mIP := "192.0.2.9", mRemoteListeningPort := 0,
    mIncomingHeader := ⟨0, 0, 0, 0⟩, mIncomingBody := [5],
    helloTimerArmed := true }

/-- An accept-constructed connection whose body buffer is empty — too short
for any envelope schema, so structural decode fails. -/
def emptyBodyConn : Conn :=
  { role := PeerRole.INITIATOR, state := PeerState.CONNECTED,
    mIP := "192.0.2.9", mRemoteListeningPort := 0,
    mIncomingHeader := ⟨0, 0, 0, 0⟩, mIncomingBody := [],
    helloTimerArmed := true }

/-- An initiate-constructed connection awaiting the remote's hello reply. -/
def initConn : Conn :=
  { role := PeerRole.ACCEPTOR, state := PeerState.CONNECTED,
    mIP := "192.0.2.33", mRemoteListeningPort := 7002,
    mIncomingHeader := ⟨0, 0, 0, 0⟩, mIncomingBody := [],
    helloTimerArmed := false }

/-- Collaborator answers: valid hello, admission granted, empty store. -/
def admitEnv : Env :=
  { helloValid := true, isPeerAccepted := true, peerRecordDB := none,
    now := 42 }

/-- Collaborator answers: valid hello, admission refused, empty store. -/
def rejectEnv : Env :=
  { helloValid := true, isPeerAccepted := false, peerRecordDB := none,
    now := 42 }

/-- Collaborator answers: valid hello, with a pre-existing reputation record
carrying three recorded failures (the spec's Scenario D). -/
def failures3Env : Env :=
  { helloValid := true, isPeerAccepted := true,
    peerRecordDB := some
      { mIP := "192.0.2.33", mPort := 7002, mNumFailures := 3,
        mNextAttempt := 9 },
    now := 42 }

/-! ## Arithmetic reading of the shift-accumulate -/

theorem shiftLeft8_or_eq (a b : Nat) (hb : b < 256) :
    a <<< 8 ||| b = a * 256 + b := by
  have h := Nat.mul_add_lt_is_or (i := 8) (b := b) (by omega) a
  have h2 : (2 : Nat) ^ 8 = 256 := by norm_num
  rw [Nat.shiftLeft_eq, Nat.mul_comm a (2 ^ 8), ← h, h2, Nat.mul_comm]

theorem and_0x7f_eq (b : Nat) : b &&& 0x7f = b % 128 := by
  have h := Nat.and_pow_two_sub_one_eq_mod b 7
  norm_num at h
  exact h

theorem accumLength_eq (b0 b1 b2 b3 : Nat) (h1 : b1 < 256) (h2 : b2 < 256)
    (h3 : b3 < 256) :
    accumLength b0 b1 b2 b3 =
      ((b0 % 128 * 256 + b1) * 256 + b2) * 256 + b3 := by
  unfold accumLength
  rw [shiftLeft8_or_eq _ _ h1, and_0x7f_eq, shiftLeft8_or_eq _ _ h2,
    shiftLeft8_or_eq _ _ h3]

theorem accumLength_le (b0 b1 b2 b3 : Nat) (h1 : b1 < 256) (h2 : b2 < 256)
    (h3 : b3 < 256) : accumLength b0 b1 b2 b3 ≤ 2147483647 := by
  rw [accumLength_eq b0 b1 b2 b3 h1 h2 h3]
  have h0 : b0 % 128 < 128 := Nat.mod_lt _ (by norm_num)
  omega

theorem getLength32_eq_accum (h : Header) :
    getLength32 h =
      ((accumLength h.b0.val h.b1.val h.b2.val h.b3.val : Nat) : Int) := by
  have hle := accumLength_le h.b0.val h.b1.val h.b2.val h.b3.val
    h.b1.isLt h.b2.isLt h.b3.isLt
  unfold getLength32 toInt32
  rw [Nat.mod_eq_of_lt (by omega)]
  rw [if_pos (by omega)]

theorem getLength32_bounds (h : Header) :
    0 ≤ getLength32 h ∧ getLength32 h ≤ 2147483647 := by
  have hle := accumLength_le h.b0.val h.b1.val h.b2.val h.b3.val
    h.b1.isLt h.b2.isLt h.b3.isLt
  rw [getLength32_eq_accum h]
  omega

/-! ## C9 -/

/-- C9: for every length in [0, 0x0FFFFFFF], decoding the 4-byte big-endian
header encoding of that length yields exactly that length, and the decoder
ignores the reserved bit 31: a header with the top bit of byte 0 set decodes
to the same value as the identical header with that bit clear. -/
theorem c9_header_roundtrip_and_reserved_bit_ignored :
    (∀ n : Nat, n ≤ 0x0FFFFFFF → getLength32 (encodeHeader n) = (n : Int)) ∧
      ∀ h : Header, getLength32 (setReservedBit h) = getLength32 h := by
  constructor
  · intro n hn
    rw [getLength32_eq_accum]
    have hb1 : (encodeHeader n).b1.val < 256 := (encodeHeader n).b1.isLt
    have hb2 : (encodeHeader n).b2.val < 256 := (encodeHeader n).b2.isLt
    have hb3 : (encodeHeader n).b3.val < 256 := (encodeHeader n).b3.isLt
    rw [accumLength_eq _ _ _ _ hb1 hb2 hb3]
    have he0 : (encodeHeader n).b0.val = n / 16777216 % 256 := rfl
    have he1 : (encodeHeader n).b1.val = n / 65536 % 256 := rfl
    have he2 : (encodeHeader n).b2.val = n / 256 % 256 := rfl
    have he3 : (encodeHeader n).b3.val = n % 256 := rfl
    rw [he0, he1, he2, he3]
    have harith :
        ((n / 16777216 % 256 % 128 * 256 + n / 65536 % 256) * 256 +
            n / 256 % 256) * 256 + n % 256 = n := by
      omega
    exact_mod_cast harith
  · intro h
    have key : ∀ x : Nat, (x ||| 128) &&& 0x7f = x &&& 0x7f := by
      intro x
      rw [Nat.and_distrib_right]
      have h128 : (128 : Nat) &&& 0x7f = 0 := by decide
      rw [h128, Nat.or_zero]
    simp only [getLength32, setReservedBit, accumLength, key]

/-- Witness for C9: the round trip at length 12345 and the reserved bit on the
header 61 02 03 04. -/
theorem c9_witness :
    getLength32 (encodeHeader 12345) = (12345 : Int) ∧
      getLength32 (setReservedBit ⟨97, 2, 3, 4⟩) = getLength32 ⟨97, 2, 3, 4⟩ :=
  ⟨c9_header_roundtrip_and_reserved_bit_ignored.1 12345 (by decide),
   c9_header_roundtrip_and_reserved_bit_ignored.2 ⟨97, 2, 3, 4⟩⟩

/-! ## C2 -/

/-- C2 counterexample: the header 01 00 00 00 decodes to exactly 0x1000000,
yet `getIncomingMsgLength` accepts it — no warning, no Teardown, the state
stays out of Closing — because the source's guard is
`length > MAX_MESSAGE_SIZE` (line 176), an inclusive acceptance of 16 MiB,
while the claim asserts the accepted interval is [0, 0x1000000) with an
exclusive upper bound. -/
theorem c2_counterexample_16MiB_accepted :
    getLength32 boundaryConn.mIncomingHeader = 16777216 ∧
      TCPPeer.getIncomingMsgLength boundaryConn =
        (16777216, boundaryConn, []) ∧
      (TCPPeer.getIncomingMsgLength boundaryConn).2.1.state ≠
        PeerState.CLOSING := by
  refine ⟨by decide, by decide, by decide⟩

/-- C2 amended: the frame codec classifies a frame as a protocol error (log
plus Teardown) exactly when the decoded (masked) body length is strictly
greater than 0x1000000; the set of accepted body lengths is the inclusive
interval [0, 0x1000000]. -/
theorem c2_amended_inclusive_bound (c : Conn) :
    (MAX_MESSAGE_SIZE < getLength32 c.mIncomingHeader →
        (TCPPeer.getIncomingMsgLength c).2.2 =
            Effect.logWarn :: (TCPPeer.drop c).2 ∧
          (TCPPeer.getIncomingMsgLength c).2.1.state = PeerState.CLOSING) ∧
      (getLength32 c.mIncomingHeader ≤ MAX_MESSAGE_SIZE →
        TCPPeer.getIncomingMsgLength c =
          (getLength32 c.mIncomingHeader, c, [])) := by
  have hb := getLength32_bounds c.mIncomingHeader
  constructor
  · intro hgt
    have hcond :
        getLength32 c.mIncomingHeader < 0 ∨
          getLength32 c.mIncomingHeader > MAX_MESSAGE_SIZE := Or.inr hgt
    constructor
    · simp [TCPPeer.getIncomingMsgLength, if_pos hcond]
    · by_cases hc : c.state = PeerState.CLOSING <;>
        simp [TCPPeer.getIncomingMsgLength, if_pos hcond, TCPPeer.drop, hc]
  · intro hle
    have hcond :
        ¬(getLength32 c.mIncomingHeader < 0 ∨
            getLength32 c.mIncomingHeader > MAX_MESSAGE_SIZE) := by
      rw [not_or]
      exact ⟨not_lt.mpr hb.1, not_lt.mpr hle⟩
    simp [TCPPeer.getIncomingMsgLength, if_neg hcond]

/-- Witness for the amended C2: the 32 MiB header is torn down, the 16 MiB
header is accepted. -/
theorem c2_amended_witness :
    (TCPPeer.getIncomingMsgLength oversizedConn).2.1.state =
        PeerState.CLOSING ∧
      TCPPeer.getIncomingMsgLength boundaryConn =
        (getLength32 boundaryConn.mIncomingHeader, boundaryConn, []) :=
  ⟨((c2_amended_inclusive_bound oversizedConn).1 (by decide)).2,
   (c2_amended_inclusive_bound boundaryConn).2 (by decide)⟩

/-! ## C10 -/

/-- C10: for every possible 4-byte header, the decoded length is in
[0, 0x7FFFFFFF]: the `&= 0x7f` mask on byte 0 keeps the 32-bit accumulation
below 2^31, so the accumulated `int` is never negative and the `length < 0`
arm of the bounds check can never be the trigger. -/
theorem c10_length_never_negative :
    ∀ h : Header,
      (0 ≤ getLength32 h ∧ getLength32 h ≤ 2147483647) ∧
        ∀ c : Conn, 0 ≤ getLength32 c.mIncomingHeader := by
  intro h
  exact ⟨getLength32_bounds h, fun c => (getLength32_bounds c.mIncomingHeader).1⟩

/-! ## Teardown sequencer lemmas -/

theorem drop_of_closing (c : Conn) (hc : c.state = PeerState.CLOSING) :
    TCPPeer.drop c = (c, []) := by
  simp [TCPPeer.drop, hc]

theorem drop_state_closing (c : Conn) :
    (TCPPeer.drop c).1.state = PeerState.CLOSING := by
  by_cases hc : c.state = PeerState.CLOSING <;> simp [TCPPeer.drop, hc]

theorem dropN_of_closing (k : Nat) (c : Conn)
    (hc : c.state = PeerState.CLOSING) : TCPPeer.dropN k c = (c, []) := by
  induction k with
  | zero => rfl
  | succ n ih => simp [TCPPeer.dropN, drop_of_closing c hc, ih]

/-! ## C5 -/

/-- C5: `drop()` is idempotent: for every N ≥ 1, invoking it N times on a live
connection yields exactly one registry unregister, one socket shutdown and one
socket close; the whole sequence equals the first call, and every later call
finds the state Closing and returns with no effect. -/
theorem c5_drop_idempotent (N : Nat) (c : Conn) (hN : 1 ≤ N)
    (hc : c.state ≠ PeerState.CLOSING) :
    (TCPPeer.dropN N c).2.count Effect.unregister = 1 ∧
      (TCPPeer.dropN N c).2.count Effect.sockShutdown = 1 ∧
      (TCPPeer.dropN N c).2.count Effect.sockClose = 1 ∧
      (TCPPeer.dropN N c).1.state = PeerState.CLOSING ∧
      TCPPeer.dropN N c = TCPPeer.drop c ∧
      ∀ k : Nat,
        TCPPeer.dropN k (TCPPeer.drop c).1 = ((TCPPeer.drop c).1, []) := by
  obtain ⟨m, rfl⟩ : ∃ m, N = m + 1 := ⟨N - 1, by omega⟩
  have hd : TCPPeer.drop c =
      ({ c with state := PeerState.CLOSING },
        [Effect.unregister, Effect.sockShutdown, Effect.sockClose]) := by
    simp [TCPPeer.drop, hc]
  have hrest :
      TCPPeer.dropN m ({ c with state := PeerState.CLOSING } : Conn) =
        (({ c with state := PeerState.CLOSING } : Conn), []) :=
    dropN_of_closing m _ rfl
  have hm : TCPPeer.dropN (m + 1) c = TCPPeer.drop c := by
    simp [TCPPeer.dropN, hd, hrest]
  rw [hm, hd]
  refine ⟨rfl, rfl, rfl, rfl, rfl, ?_⟩
  intro k
  exact dropN_of_closing k _ rfl

/-- Witness for C5: three consecutive drops of a live connection. -/
theorem c5_witness :
    (TCPPeer.dropN 3 liveConn).2.count Effect.unregister = 1 ∧
      (TCPPeer.dropN 3 liveConn).2.count Effect.sockClose = 1 ∧
      (TCPPeer.dropN 3 liveConn).1.state = PeerState.CLOSING ∧
      TCPPeer.dropN 2 (TCPPeer.drop liveConn).1 =
        ((TCPPeer.drop liveConn).1, []) := by
  have h := c5_drop_idempotent 3 liveConn (by decide) (by decide)
  exact ⟨h.1, h.2.2.1, h.2.2.2.1, h.2.2.2.2.2 2⟩

/-! ## C4 -/

/-- C4: once the handshake deadline timer has fired and its Teardown has set
the state to Closing, a subsequently delivered hello is a no-op: the base
validation declines, no reputation-store access and no send happens (the only
emitted effect is the idempotent timer cancel), and the connection stays
Closing — so at most one of timeout-Teardown and successful handshake is ever
observed. -/
theorem c4_hello_noop_after_timeout (env : Env) (msg : StellarMessage)
    (c : Conn) :
    TCPPeer.recvHello env msg (TCPPeer.timerExpired c).1 =
      (false,
        { (TCPPeer.timerExpired c).1 with helloTimerArmed := false },
        [Effect.cancelHelloTimer]) ∧
      ((TCPPeer.recvHello env msg (TCPPeer.timerExpired c).1).2.1).state =
        PeerState.CLOSING := by
  have hclosed : (TCPPeer.timerExpired c).1.state = PeerState.CLOSING :=
    drop_state_closing c
  have h1 :
      TCPPeer.recvHello env msg (TCPPeer.timerExpired c).1 =
        (false,
          { (TCPPeer.timerExpired c).1 with helloTimerArmed := false },
          [Effect.cancelHelloTimer]) := by
    simp [TCPPeer.recvHello, TCPPeer.peerRecvHello, hclosed]
  refine ⟨h1, ?_⟩
  rw [h1]
  exact hclosed

/-! ## C6 -/

/-- C6: `initiate` constructs the connection this node opened (the spec's
Initiator — the source tags it with the enum value `ACCEPTOR`, which names the
remote's role) and `accept` constructs the connection the remote opened (the
spec's Acceptor, source enum `INITIATOR`); only the accept-constructed
connection arms the handshake deadline timer, as its full effect list
shows. -/
theorem c6_roles_and_timer (ip : String) (port : Nat) (remoteIp : String) :
    specRoleOf (TCPPeer.initiate ip port).1.role = SpecRole.Initiator ∧
      specRoleOf (TCPPeer.accept remoteIp).1.role = SpecRole.Acceptor ∧
      (TCPPeer.accept remoteIp).1.helloTimerArmed = true ∧
      (TCPPeer.accept remoteIp).2 =
        [Effect.armHelloTimer MS_TO_WAIT_FOR_HELLO, Effect.armHeaderRead] ∧
      (TCPPeer.initiate ip port).1.helloTimerArmed = false ∧
      (TCPPeer.initiate ip port).2 = [Effect.asyncConnect] :=
  ⟨rfl, rfl, rfl, rfl, rfl, rfl⟩

/-! ## C7 -/

/-- C7: when the accept-constructed connection (source role `INITIATOR`)
receives a valid hello and no reputation record exists for the remote's
address and port, a default record is created and persisted; then, if
admission accepts the peer, our hello followed by our peer list is sent and
the connection stays up (no Teardown effect); if admission rejects, only the
peer list is sent — no hello from us — and the connection is dropped.  The
full effect lists in source order show both outcomes. -/
theorem c7_acceptor_hello_admission (env : Env) (c : Conn) (p : Nat)
    (hrole : c.role = PeerRole.INITIATOR)
    (hstate : c.state = PeerState.CONNECTED)
    (hvalid : env.helloValid = true)
    (hdb : env.peerRecordDB = none) :
    (env.isPeerAccepted = true →
        TCPPeer.recvHello env (StellarMessage.hello p) c =
          (true,
            { c with
                helloTimerArmed := false
                mRemoteListeningPort := p
                state := PeerState.CONNECTED },
            [Effect.cancelHelloTimer, Effect.dbLoad c.mIP p,
              Effect.dbStore (PeerRecord.fromIPPort c.mIP p env.now),
              Effect.sendHello, Effect.sendPeers])) ∧
      (env.isPeerAccepted = false →
        TCPPeer.recvHello env (StellarMessage.hello p) c =
          (true,
            { c with
                helloTimerArmed := false
                mRemoteListeningPort := p
                state := PeerState.CLOSING },
            [Effect.cancelHelloTimer, Effect.dbLoad c.mIP p,
              Effect.dbStore (PeerRecord.fromIPPort c.mIP p env.now),
              Effect.sendPeers, Effect.unregister, Effect.sockShutdown,
              Effect.sockClose])) := by
  constructor
  · intro hacc
    simp [TCPPeer.recvHello, TCPPeer.peerRecvHello, hstate, hvalid, hrole,
      hdb, hacc]
  · intro hacc
    simp [TCPPeer.recvHello, TCPPeer.peerRecvHello, TCPPeer.drop, hstate,
      hvalid, hrole, hdb, hacc]

/-- Witness for C7: a concrete accepted run and a concrete rejected run. -/
theorem c7_witness :
    TCPPeer.recvHello admitEnv (StellarMessage.hello 7001) helloBodyConn =
        (true,
          { helloBodyConn with
              helloTimerArmed := false
              mRemoteListeningPort := 7001
              state := PeerState.CONNECTED },
          [Effect.cancelHelloTimer, Effect.dbLoad "192.0.2.9" 7001,
            Effect.dbStore (PeerRecord.fromIPPort "192.0.2.9" 7001 42),
            Effect.sendHello, Effect.sendPeers]) ∧
      TCPPeer.recvHello rejectEnv (StellarMessage.hello 7001) helloBodyConn =
        (true,
          { helloBodyConn with
              helloTimerArmed := false
              mRemoteListeningPort := 7001
              state := PeerState.CLOSING },
          [Effect.cancelHelloTimer, Effect.dbLoad "192.0.2.9" 7001,
            Effect.dbStore (PeerRecord.fromIPPort "192.0.2.9" 7001 42),
            Effect.sendPeers, Effect.unregister, Effect.sockShutdown,
            Effect.sockClose]) :=
  ⟨(c7_acceptor_hello_admission admitEnv helloBodyConn 7001 rfl rfl rfl
      rfl).1 rfl,
   (c7_acceptor_hello_admission rejectEnv helloBodyConn 7001 rfl rfl rfl
      rfl).2 rfl⟩

/-! ## C8 -/

/-- C8: when the initiate-constructed connection (source role `ACCEPTOR`,
"we called this guy") receives a valid hello, the reputation record for the
remote's address and port — the stored record when one exists, a freshly
created one otherwise — has its failure counter zeroed and its next-attempt
time set to now, and exactly that record is stored. -/
theorem c8_initiator_hello_resets_backoff (env : Env) (c : Conn) (p : Nat)
    (hrole : c.role = PeerRole.ACCEPTOR)
    (hstate : c.state = PeerState.CONNECTED)
    (hvalid : env.helloValid = true) :
    TCPPeer.recvHello env (StellarMessage.hello p) c =
        (true,
          { c with
              helloTimerArmed := false
              mRemoteListeningPort := p
              state := PeerState.CONNECTED },
          [Effect.cancelHelloTimer, Effect.dbLoad c.mIP p,
            Effect.dbStore
              { env.peerRecordDB.getD
                  (PeerRecord.fromIPPort c.mIP p env.now) with
                mNumFailures := 0
                mNextAttempt := env.now }]) ∧
      ({ env.peerRecordDB.getD (PeerRecord.fromIPPort c.mIP p env.now) with
          mNumFailures := 0
          mNextAttempt := env.now } : PeerRecord).mNumFailures
          = 0 ∧
      ({ env.peerRecordDB.getD (PeerRecord.fromIPPort c.mIP p env.now) with
          mNumFailures := 0
          mNextAttempt := env.now } : PeerRecord).mNextAttempt
          = env.now := by
  refine ⟨?_, rfl, rfl⟩
  cases hdb : env.peerRecordDB with
  | none =>
      simp [TCPPeer.recvHello, TCPPeer.peerRecvHello, hstate, hvalid, hrole,
        hdb]
  | some pr =>
      simp [TCPPeer.recvHello, TCPPeer.peerRecvHello, hstate, hvalid, hrole,
        hdb]

/-- Witness for C8: the spec's Scenario D — a pre-existing record with three
failures is stored back with zero failures and next attempt now (42). -/
theorem c8_witness :
    TCPPeer.recvHello failures3Env (StellarMessage.hello 7002) initConn =
      (true,
        { initConn with
            helloTimerArmed := false
            mRemoteListeningPort := 7002
            state := PeerState.CONNECTED },
        [Effect.cancelHelloTimer, Effect.dbLoad "192.0.2.33" 7002,
          Effect.dbStore
            { mIP := "192.0.2.33", mPort := 7002, mNumFailures := 0,
              mNextAttempt := 42 }]) :=
  (c8_initiator_hello_resets_backoff failures3Env initConn 7002 rfl rfl
    rfl).1

/-! ## C1 -/

theorem getIncomingMsgLength_fst (c : Conn) :
    (TCPPeer.getIncomingMsgLength c).1 = getLength32 c.mIncomingHeader := by
  simp only [TCPPeer.getIncomingMsgLength]
  split
  · rcases TCPPeer.drop c with ⟨c2, es⟩
    rfl
  · rfl

/-- C1 counterexample: Teardown does not stop the read chain.  First leg: the
header 02 00 00 00 (body length 32 MiB, out of range) makes
`readHeaderHandler` invoke Teardown (the state reaches Closing and the
unregister effect is emitted) — and the handler still issues the body read for
that very frame, sized by the out-of-range length.  Second leg: a dispatched
hello that is refused admission triggers Teardown inside `recvMessage`, and
`readBodyHandler` still re-arms the 4-byte header read afterwards. -/
theorem c1_counterexample_reads_after_teardown :
    ((TCPPeer.readHeaderHandler false 4 oversizedConn).1.state =
        PeerState.CLOSING ∧
      Effect.unregister ∈ (TCPPeer.readHeaderHandler false 4 oversizedConn).2 ∧
      Effect.armBodyRead 33554432 ∈
        (TCPPeer.readHeaderHandler false 4 oversizedConn).2) ∧
      ((TCPPeer.readBodyHandler rejectEnv false 3 helloBodyConn =
          Outcome.ok
            { helloBodyConn with
                helloTimerArmed := false
                mRemoteListeningPort := 7001
                state := PeerState.CLOSING }
            [Effect.markByteRead 3, Effect.markMessageRead,
              Effect.cancelHelloTimer, Effect.dbLoad "192.0.2.9" 7001,
              Effect.dbStore (PeerRecord.fromIPPort "192.0.2.9" 7001 42),
              Effect.sendPeers, Effect.unregister, Effect.sockShutdown,
              Effect.sockClose, Effect.armHeaderRead]) ∧
        Effect.armHeaderRead ∈
          [Effect.markByteRead 3, Effect.markMessageRead,
            Effect.cancelHelloTimer, Effect.dbLoad "192.0.2.9" 7001,
            Effect.dbStore (PeerRecord.fromIPPort "192.0.2.9" 7001 42),
            Effect.sendPeers, Effect.unregister, Effect.sockShutdown,
            Effect.sockClose, Effect.armHeaderRead]) := by
  refine ⟨⟨by decide, by decide, by decide⟩, by decide, by decide⟩

/-- C1 amended: once Teardown has begun, the in-flight completion handlers do
not check the state: `readHeaderHandler` always issues the body read — sized
by the decoded length, in range or not — after whatever `getIncomingMsgLength`
did (including Teardown), and `readBodyHandler` always re-arms the 4-byte
header read whenever message handling returns without throwing, Teardown or
not.  The read chain ends only through a read completing with an error (after
the posted socket close) or through an escaped exception. -/
theorem c1_amended_handlers_do_not_check_state (c : Conn) (bytes : Nat)
    (env : Env) :
    (TCPPeer.readHeaderHandler false bytes c).2 =
        Effect.markByteRead bytes ::
          (TCPPeer.getIncomingMsgLength c).2.2 ++
            [Effect.armBodyRead (toSizeT (getLength32 c.mIncomingHeader))] ∧
      ∀ c2 es,
        TCPPeer.readBodyHandler env false bytes c = Outcome.ok c2 es →
          Effect.armHeaderRead ∈ es := by
  constructor
  · rcases hg : TCPPeer.getIncomingMsgLength c with ⟨l, c1, es1⟩
    have hl : l = getLength32 c.mIncomingHeader := by
      have h := getIncomingMsgLength_fst c
      rw [hg] at h
      exact h
    simp only [TCPPeer.readHeaderHandler, hg, hl, reduceIte]
  · intro c2 es h
    simp only [TCPPeer.readBodyHandler, reduceIte] at h
    rcases hr : TCPPeer.recvMessage env c with ⟨c3, es3⟩ | ⟨c3, es3⟩
    · rw [hr] at h
      simp only [TCPPeer.startRead] at h
      injection h with h1 h2
      subst h2
      simp
    · rw [hr] at h
      simp at h

/-- Witness for the amended C1: a concrete successful dispatch whose handler
re-arms the header read. -/
theorem c1_amended_witness :
    Effect.armHeaderRead ∈
      [Effect.markByteRead 1, Effect.markMessageRead,
        Effect.dispatchToHandler, Effect.armHeaderRead] :=
  (c1_amended_handlers_do_not_check_state otherBodyConn 1 rejectEnv).2
    otherBodyConn
    [Effect.markByteRead 1, Effect.markMessageRead,
      Effect.dispatchToHandler, Effect.armHeaderRead]
    (by decide)

/-! ## C3 -/

/-- C3 (code bug): `recvMessage` (lines 241-250) has no exception handler, so
a body that fails structural decoding makes the XDR exception escape
`recvMessage` and `readBodyHandler` into the event loop: no Teardown is
invoked (no unregister, no socket close, the state stays out of Closing), and
an error from inside the layer does reach its caller as a thrown fault.  Here
evaluated at a concrete failing input, a frame with an empty body. -/
theorem c3_decode_failure_escapes_without_teardown :
    TCPPeer.recvMessage admitEnv emptyBodyConn =
        Outcome.thrown emptyBodyConn [Effect.markMessageRead] ∧
      TCPPeer.readBodyHandler admitEnv false 0 emptyBodyConn =
        Outcome.thrown emptyBodyConn
          [Effect.markByteRead 0, Effect.markMessageRead] ∧
      emptyBodyConn.state = PeerState.CONNECTED :=
  ⟨by decide, by decide, rfl⟩

end stellar
